import Mathlib

/-!
# Farmingo storefront: checkout validation and order submission

A shallow embedding of `src/app/checkout/page.js` (the `CheckoutPage`
component: `validateInputs`, `handleOrder`, the total price expression).

* JavaScript strings are sequences of UTF-16 code units, so `s.length` is the
  length of the list and `!s` holds exactly for the empty list.
* The object built by `validateInputs` is an insertion-ordered list of
  key/value pairs; `Object.keys(o).length` is the length of that list.
* `handleOrder` is an `async` function whose behaviour depends on what the
  outside world answers (the confirmation dialog, the two `fetch` calls); it is
  embedded as a function from the component state and those answers to the
  ordered list of effects the run performs.
* JavaScript numbers are IEEE-754 doubles. The total price is computed on
  integer-valued doubles: a finite value is the integer it holds, `none` stands
  for a value that is not finite, and every product and sum is the exact result
  rounded to the nearest double, ties to even.
-/

namespace Farmingo

/-! ## JavaScript strings -/

/-- A JavaScript string value: its UTF-16 code units. -/
abbrev JSString := List Nat

/-- The UTF-16 code units of one Unicode scalar value. -/
def utf16Units (c : Char) : List Nat :=
  if c.toNat < 0x10000 then [c.toNat]
  else [0xD800 + (c.toNat - 0x10000) / 0x400, 0xDC00 + (c.toNat - 0x10000) % 0x400]

/-- The JavaScript string written as the literal `s`. -/
def js (s : String) : JSString :=
  s.toList.flatMap utf16Units

/-! ## Regular expressions (the fragment used by `phoneRegex`) -/

/-- Regular expression syntax: literal character, character range `[a-b]`,
`\d`, concatenation, alternation `a|b` and bounded repetition `a{n}`. -/
inductive Regex where
  | char (c : Char)
  | range (lo hi : Char)
  | digit
  | seq (a b : Regex)
  | alt (a b : Regex)
  | times (n : Nat) (a : Regex)

/-- Apply a matcher `n` times in sequence, collecting every remainder. -/
def iterate (f : JSString → List JSString) : Nat → JSString → List JSString
  | 0, s => [s]
  | n + 1, s => (f s).flatMap (iterate f n)

/-- All the ways a regular expression can match a prefix of the input: the
list of remaining inputs, in backtracking order. -/
def Regex.run : Regex → JSString → List JSString
  | .char c, u :: rest => if u = c.toNat then [rest] else []
  | .char _, [] => []
  | .range lo hi, u :: rest => if lo.toNat ≤ u ∧ u ≤ hi.toNat then [rest] else []
  | .range _ _, [] => []
  | .digit, u :: rest => if 48 ≤ u ∧ u ≤ 57 then [rest] else []
  | .digit, [] => []
  | .seq a b, s => (a.run s).flatMap b.run
  | .alt a b, s => a.run s ++ b.run s
  | .times n a, s => iterate a.run n s

/-- The call `/^(r)$/.test(s)`: some match of `r` starting at the beginning of the
input ends at the end of the input. -/
def Regex.test (r : Regex) (s : JSString) : Bool :=
  (r.run s).any List.isEmpty

/-- The concatenation of the literal characters of `s`, followed by `r`. -/
def Regex.lits (s : List Char) (r : Regex) : Regex :=
  s.foldr (fun c acc => Regex.seq (Regex.char c) acc) r

/-- The body of `/^(\+8801[3-9]\d{8}|01[3-9]\d{8})$/`. -/
def phoneRegex : Regex :=
  .alt
    (Regex.lits ['+', '8', '8', '0', '1'] (.seq (.range '3' '9') (.times 8 .digit)))
    (Regex.lits ['0', '1'] (.seq (.range '3' '9') (.times 8 .digit)))

/-! ## The error object -/

/-- A plain JavaScript object with string values: its own keys in insertion
order, each with its value. -/
abbrev ErrorSet := List (String × String)

/-- The assignment `o.k = v`. -/
def ErrorSet.set (o : ErrorSet) (k v : String) : ErrorSet :=
  if o.any (fun kv => kv.1 == k) then o.map (fun kv => if kv.1 == k then (k, v) else kv)
  else o ++ [(k, v)]

/-- The read `o.k` (`none` for `undefined`). -/
def ErrorSet.get (o : ErrorSet) (k : String) : Option String :=
  o.lookup k

/-- The call `Object.keys(o)`. -/
def objectKeys (o : ErrorSet) : List String :=
  o.map Prod.fst

/-! ## validateInputs -/

/-- The function `validateInputs` of `CheckoutPage`, over the three form fields it
reads from the component state. -/
def validateInputs (name address phoneNumber : JSString) : ErrorSet :=
  let newErrors : ErrorSet := []
  let newErrors := if name.isEmpty then newErrors.set "name" "Name is required." else newErrors
  let newErrors :=
    if address.isEmpty then newErrors.set "address" "Address is required." else newErrors
  let newErrors :=
    if phoneNumber.isEmpty then
      newErrors.set "phone" "Phone number is required."
    else if phoneNumber.length ≠ 11 then
      newErrors.set "phone" "Phone number must be exactly 11 digits."
    else if !phoneRegex.test phoneNumber then
      newErrors.set "phone" "Please enter a valid Bangladeshi phone number."
    else newErrors
  newErrors

/-! ## The checkout page state and the outside world -/

/-- A line of the cart provided by `useCart()`. -/
structure CartItem where
  id : Nat
  name : JSString
  price : Int
  quantity : Int
  unit : JSString
  image : JSString
  deriving DecidableEq, Repr

/-- An entry of the zone directory returned by the zones endpoint. -/
structure Zone where
  id : Nat
  name : JSString
  deriving DecidableEq, Repr

/-- An element of `productData`. -/
structure OrderLine where
  product_id : Nat
  quantity : Int
  deriving DecidableEq, Repr

/-- The `customer` object of `orderData`. -/
structure Customer where
  name : JSString
  address : JSString
  phone : JSString
  deriving DecidableEq, Repr

/-- The object `orderData` that is serialised as the body of the order request. -/
structure OrderData where
  zone_id : Nat
  product : List OrderLine
  customer : Customer
  deriving DecidableEq, Repr

/-- What `handleOrder` reads from the component: the hooks `useAuth`, `useCart`,
the `useState` cells and `getSelectedZone()`. -/
structure CheckoutState where
  isAuthenticated : Bool
  authToken : Option JSString
  name : JSString
  address : JSString
  phoneNumber : JSString
  cart : List CartItem
  savedZone : Option JSString

/-- What the zones request answers: the `fetch` promise rejects with an error, or
it resolves to a response with its `ok` flag and the outcome of `.json()`
(a parse error or the zone array). -/
inductive ZonesAnswer where
  | rejected (message : String)
  | response (ok : Bool) (json : Except String (List Zone))

/-- What the order request answers: the `fetch` promise rejects with an error, or
it resolves to a response with its `ok` flag. -/
inductive OrderAnswer where
  | rejected (message : String)
  | response (ok : Bool)
  deriving DecidableEq

/-- The answers of the outside world to one run of `handleOrder`: the field
`isConfirmed` of the dialog result, and the two network answers. -/
structure Answers where
  isConfirmed : Bool
  zones : ZonesAnswer
  order : OrderAnswer

/-- The observable actions of `handleOrder`, one constructor per call the function
makes on a collaborator. -/
inductive Effect where
  | openLoginModal
  | setErrors (errors : ErrorSet)
  | swalFire
  | fetchZones
  | fetchOrder (authorization : JSString) (body : OrderData)
  | toastSuccess (message : String)
  | clearCart
  | routerPush (path : String)
  | consoleError (label message : String)
  | toastError (message : String)
  deriving DecidableEq, Repr

/-- The value of the `Authorization` header: the template string with `authToken`. -/
def authorizationHeader (authToken : Option JSString) : JSString :=
  js "Bearer " ++ authToken.getD (js "undefined")

/-- The object `orderData` built from the cart, the resolved zone and the inputs. -/
def buildOrderData (st : CheckoutState) (zone : Zone) : OrderData :=
  let productData :=
    st.cart.map (fun item => { product_id := item.id, quantity := item.quantity : OrderLine })
  { zone_id := zone.id
    product := productData
    customer := { name := st.name, address := st.address, phone := st.phoneNumber } }

/-- The `try` block of `handleOrder`: the effects it performs in order, and the
message of the error it throws, if any. -/
def orderAttempt (st : CheckoutState) (an : Answers) : List Effect × Option String :=
  match an.zones with
  | .rejected message => ([.fetchZones], some message)
  | .response ok json =>
    if !ok then ([.fetchZones], some "Failed to fetch zones")
    else
      match json with
      | .error message => ([.fetchZones], some message)
      | .ok zonesData =>
        match zonesData.find? (fun zone => some zone.name == st.savedZone) with
        | none => ([.fetchZones], some "Selected zone not found in zones data")
        | some zone =>
          let request :=
            Effect.fetchOrder (authorizationHeader st.authToken) (buildOrderData st zone)
          match an.order with
          | .rejected message => ([.fetchZones, request], some message)
          | .response ok =>
            if !ok then ([.fetchZones, request], some "Failed to send order data")
            else
              ([.fetchZones, request, .toastSuccess "Order placed successfully",
                .clearCart, .routerPush "/"], none)

/-- The function `handleOrder` of `CheckoutPage`: the effects of one run, in order. -/
def handleOrder (st : CheckoutState) (an : Answers) : List Effect :=
  if !st.isAuthenticated then [.openLoginModal]
  else
    let validationErrors := validateInputs st.name st.address st.phoneNumber
    if (objectKeys validationErrors).length > 0 then [.setErrors validationErrors]
    else if an.isConfirmed then
      match orderAttempt st an with
      | (done, none) => .swalFire :: done
      | (done, some message) =>
        .swalFire :: done ++
          [.consoleError "Error sending order data:" message,
           .toastError "Error placing the order"]
    else [.swalFire]

/-! ## JavaScript numbers with integer values -/

/-- The number of low bits of `n` that do not fit in the 53-bit significand of a
double: `0` below `2 ^ 53`, else the bit length of `n` minus 53. The first
argument bounds the recursion and is `n` itself at the call. -/
def excessBits : Nat → Nat → Nat
  | 0, _ => 0
  | fuel + 1, n => if n < 2 ^ 53 then 0 else excessBits fuel (n / 2) + 1

/-- The magnitude of the double nearest to the natural number `n`, ties to even:
`n` is cut to its 53 leading bits and rounded on the bits cut off. -/
def roundNat (n : Nat) : Nat :=
  let e := excessBits n n
  if e = 0 then n
  else
    let q := n / 2 ^ e
    let r := n % 2 ^ e
    let half := 2 ^ (e - 1)
    if r < half ∨ (r = half ∧ q % 2 = 0) then q * 2 ^ e else (q + 1) * 2 ^ e

/-- The double that an arithmetic operation returns when its exact result is the
integer `x`: the nearest double, or `none` (an infinity) when the rounded
magnitude reaches `2 ^ 1024`, that is when it has a bit at position 1024 or
above. -/
def roundDouble (x : Int) : Option Int :=
  let m := roundNat x.natAbs
  if m >>> 1024 = 0 then some (if x < 0 then -(m : Int) else (m : Int)) else none

/-- The operator `*` on integer-valued doubles; an operand that is not finite
gives a result that is not finite. -/
def jsMul (a b : Option Int) : Option Int :=
  match a, b with
  | some x, some y => roundDouble (x * y)
  | _, _ => none

/-- The operator `+` on integer-valued doubles; an operand that is not finite
gives a result that is not finite. -/
def jsAdd (a b : Option Int) : Option Int :=
  match a, b with
  | some x, some y => roundDouble (x + y)
  | _, _ => none

/-- The test `Number.isSafeInteger`: the magnitude is at most `2 ^ 53 - 1`. -/
def isSafeInteger (x : Int) : Bool :=
  decide (x.natAbs < 2 ^ 53)

/-- The total price expression of the page: `cart.reduce` from `0`, each step
being `total + item.quantity * item.price` in double arithmetic. The quantity
and the price of a cart line are the integer values of two doubles. -/
def totalPrice (cart : List CartItem) : Option Int :=
  cart.foldl (fun total item => jsAdd total (jsMul (some item.quantity) (some item.price)))
    (some 0)

/-! ## Observations on a run -/

/-- The effect is the zones request. -/
def Effect.isZoneFetch : Effect → Bool
  | .fetchZones => true
  | _ => false

/-- The effect is an order request. -/
def Effect.isOrderPost : Effect → Bool
  | .fetchOrder _ _ => true
  | _ => false

/-- The effect is a notification to the user (a toast). -/
def Effect.isNotification : Effect → Bool
  | .toastSuccess _ => true
  | .toastError _ => true
  | _ => false

/-- The effect is an error notification. -/
def Effect.isErrorNotification : Effect → Bool
  | .toastError _ => true
  | _ => false

/-- The effect is a navigation. -/
def Effect.isNavigation : Effect → Bool
  | .routerPush _ => true
  | _ => false

/-- The effect writes the field errors. -/
def Effect.isSetErrors : Effect → Bool
  | .setErrors _ => true
  | _ => false

/-- The phone branch of `validateInputs` on its own: the entries the
`if`/`else if` chain on `phoneNumber` adds to an empty object. -/
def phoneErrors (phoneNumber : JSString) : ErrorSet :=
  if phoneNumber = [] then [("phone", "Phone number is required.")]
  else if phoneNumber.length ≠ 11 then [("phone", "Phone number must be exactly 11 digits.")]
  else if phoneRegex.test phoneNumber = false then
    [("phone", "Please enter a valid Bangladeshi phone number.")]
  else []

/-- The code units removed by `String.prototype.trim`: the ECMAScript white space
and line terminator characters. -/
def isWhiteSpace (u : Nat) : Bool :=
  u ∈ [0x09, 0x0A, 0x0B, 0x0C, 0x0D, 0x20, 0xA0, 0x1680, 0x2028, 0x2029, 0x202F, 0x205F,
    0x3000, 0xFEFF] || (0x2000 ≤ u && u ≤ 0x200A)

/-! ## Sample inputs -/

/-- A cart with one line. -/
def sampleCart : List CartItem :=
  [{ id := 7, name := js "Rice", price := 60, quantity := 2, unit := js "kg",
     image := js "rice.png" }]

/-- A signed-in user with valid details, a cart and the saved zone name "Dhaka". -/
def sampleState : CheckoutState :=
  { isAuthenticated := true
    authToken := some (js "token")
    name := js "A"
    address := js "B"
    phoneNumber := js "01712345678"
    cart := sampleCart
    savedZone := some (js "Dhaka") }

/-- A zone directory that contains "Dhaka" (and, before it, "dhaka"). -/
def sampleZones : List Zone :=
  [{ id := 1, name := js "dhaka" }, { id := 2, name := js "Dhaka" }]

/-- The user confirms, the directory has the saved zone, the order is accepted. -/
def sampleAnswers : Answers :=
  { isConfirmed := true
    zones := .response true (.ok sampleZones)
    order := .response true }

/-- The sample state with the name field left empty. -/
def invalidState : CheckoutState :=
  { sampleState with name := [] }

/-- The sample state of a visitor who is not signed in. -/
def unauthenticatedState : CheckoutState :=
  { sampleState with isAuthenticated := false, authToken := none }

/-- The user dismisses the confirmation dialog. -/
def declinedAnswers : Answers :=
  { sampleAnswers with isConfirmed := false }

/-- The directory only has "dhaka", which differs from "Dhaka" in case. -/
def zoneMissingAnswers : Answers :=
  { sampleAnswers with zones := .response true (.ok [{ id := 1, name := js "dhaka" }]) }

/-- The order request is answered with a status that is not a success. -/
def orderRefusedAnswers : Answers :=
  { sampleAnswers with order := .response false }

/-! ## The cart sidebar -/

/-- The calls the cart sidebar makes on the cart context of `useCart()`, each with
the item it passes. -/
inductive CartCall where
  | removeItemFromCart (item : CartItem)
  | decreaseQuantity (item : CartItem)
  | addItemToCart (item : CartItem)
  deriving DecidableEq, Repr

/-- The function `handleAddQuantity` of `CartSidebar`: the calls it makes. -/
def handleAddQuantity (item : CartItem) : List CartCall :=
  let updatedItem := { item with quantity := item.quantity + 1 }
  [.addItemToCart updatedItem]

/-- The function `handleRemoveQuantity` of `CartSidebar`: the calls it makes. -/
def handleRemoveQuantity (item : CartItem) : List CartCall :=
  if item.quantity = 1 then [.removeItemFromCart item]
  else
    let updatedItem := { item with quantity := item.quantity - 1 }
    [.decreaseQuantity updatedItem]

/-- Modelled from the spec: the operation `decreaseQuantity` of the cart context
(`contexts/cart/cart-context`, whose source is not available), which
"sets the existing entry's quantity to `item.quantity - 1`", `item` being the
argument of the call. -/
def decreaseQuantity (cart : List CartItem) (item : CartItem) : List CartItem :=
  cart.map (fun entry =>
    if entry.id = item.id then { entry with quantity := item.quantity - 1 } else entry)

/-- The cart line of the sample cart: two units. -/
def sampleItem : CartItem :=
  { id := 7, name := js "Rice", price := 60, quantity := 2, unit := js "kg",
    image := js "rice.png" }

/-- A cart with one line whose quantity and price are both 94906267: each is a
safe integer, their product 9007199515875289 is odd and above `2 ^ 53`. -/
def largeCart : List CartItem :=
  [{ id := 9, name := js "Seed", price := 94906267, quantity := 94906267, unit := js "g",
     image := js "seed.png" }]

/-- The first alternative of `phoneRegex`, with the country code. -/
def phoneRegexIntl : Regex :=
  Regex.lits ['+', '8', '8', '0', '1'] (.seq (.range '3' '9') (.times 8 .digit))

/-- The second alternative of `phoneRegex`, the national form. -/
def phoneRegexNational : Regex :=
  Regex.lits ['0', '1'] (.seq (.range '3' '9') (.times 8 .digit))

end Farmingo

/-! ## Theorems -/

namespace Farmingo

/-! ### Helper lemmas -/

theorem validateInputs_eq (name address phoneNumber : JSString) :
    validateInputs name address phoneNumber =
      (if name = [] then [("name", "Name is required.")] else []) ++
      (if address = [] then [("address", "Address is required.")] else []) ++
      phoneErrors phoneNumber := by
  unfold validateInputs phoneErrors
  by_cases hn : name = [] <;> by_cases ha : address = [] <;>
    by_cases hp : phoneNumber = [] <;> by_cases hl : phoneNumber.length = 11 <;>
    cases ht : phoneRegex.test phoneNumber <;>
    simp [hn, ha, hp, hl, ht, List.isEmpty_iff] <;> rfl

theorem phoneRegex_accepts (d d1 d2 d3 d4 d5 d6 d7 d8 : Nat) (hd : 51 ≤ d ∧ d ≤ 57)
    (h1 : 48 ≤ d1 ∧ d1 ≤ 57) (h2 : 48 ≤ d2 ∧ d2 ≤ 57) (h3 : 48 ≤ d3 ∧ d3 ≤ 57)
    (h4 : 48 ≤ d4 ∧ d4 ≤ 57) (h5 : 48 ≤ d5 ∧ d5 ≤ 57) (h6 : 48 ≤ d6 ∧ d6 ≤ 57)
    (h7 : 48 ≤ d7 ∧ d7 ≤ 57) (h8 : 48 ≤ d8 ∧ d8 ≤ 57) :
    phoneRegex.test [48, 49, d, d1, d2, d3, d4, d5, d6, d7, d8] = true := by
  simp [phoneRegex, Regex.test, Regex.run, Regex.lits, iterate, hd, h1, h2, h3, h4, h5, h6,
    h7, h8]

theorem objectKeys_length_pos (o : ErrorSet) : (objectKeys o).length > 0 ↔ o ≠ [] := by
  cases o <;> simp [objectKeys]

theorem handleOrder_unauthenticated (st : CheckoutState) (an : Answers)
    (hauth : st.isAuthenticated = false) : handleOrder st an = [.openLoginModal] := by
  simp [handleOrder, hauth]

theorem handleOrder_invalid (st : CheckoutState) (an : Answers)
    (hauth : st.isAuthenticated = true)
    (herr : validateInputs st.name st.address st.phoneNumber ≠ []) :
    handleOrder st an = [.setErrors (validateInputs st.name st.address st.phoneNumber)] := by
  have h := (objectKeys_length_pos _).2 herr
  simp only [handleOrder, hauth]
  simp [h]

theorem handleOrder_declined (st : CheckoutState) (an : Answers)
    (hauth : st.isAuthenticated = true)
    (hvalid : validateInputs st.name st.address st.phoneNumber = [])
    (hconf : an.isConfirmed = false) : handleOrder st an = [.swalFire] := by
  simp [handleOrder, hauth, hvalid, hconf, objectKeys]

theorem handleOrder_confirmed (st : CheckoutState) (an : Answers)
    (hauth : st.isAuthenticated = true)
    (hvalid : validateInputs st.name st.address st.phoneNumber = [])
    (hconf : an.isConfirmed = true) :
    handleOrder st an =
      match orderAttempt st an with
      | (done, none) => .swalFire :: done
      | (done, some message) =>
        .swalFire :: done ++
          [.consoleError "Error sending order data:" message,
           .toastError "Error placing the order"] := by
  simp [handleOrder, hauth, hvalid, hconf, objectKeys]

theorem orderAttempt_success (st : CheckoutState) (an : Answers) (zonesData : List Zone)
    (zone : Zone) (hz : an.zones = .response true (.ok zonesData))
    (hfind : zonesData.find? (fun zone => some zone.name == st.savedZone) = some zone)
    (hpost : an.order = .response true) :
    orderAttempt st an =
      ([.fetchZones, .fetchOrder (authorizationHeader st.authToken) (buildOrderData st zone),
        .toastSuccess "Order placed successfully", .clearCart, .routerPush "/"], none) := by
  simp [orderAttempt, hz, hfind, hpost]

theorem orderAttempt_cases (st : CheckoutState) (an : Answers) :
    (∃ zonesData zone, an.zones = .response true (.ok zonesData) ∧
        zonesData.find? (fun zone => some zone.name == st.savedZone) = some zone ∧
        an.order = .response true ∧
        orderAttempt st an =
          ([.fetchZones,
            .fetchOrder (authorizationHeader st.authToken) (buildOrderData st zone),
            .toastSuccess "Order placed successfully", .clearCart, .routerPush "/"], none)) ∨
    (∃ message, orderAttempt st an = ([.fetchZones], some message)) ∨
    (∃ zonesData zone message, an.zones = .response true (.ok zonesData) ∧
        zonesData.find? (fun zone => some zone.name == st.savedZone) = some zone ∧
        an.order ≠ .response true ∧
        orderAttempt st an =
          ([.fetchZones,
            .fetchOrder (authorizationHeader st.authToken) (buildOrderData st zone)],
            some message)) := by
  rcases an with ⟨c, z, o⟩
  rcases z with m | ⟨ok, j⟩
  · right; left; exact ⟨m, by simp [orderAttempt]⟩
  · cases ok
    · right; left; exact ⟨"Failed to fetch zones", by simp [orderAttempt]⟩
    · rcases j with m | zonesData
      · right; left; exact ⟨m, by simp [orderAttempt]⟩
      · cases hfind : zonesData.find? (fun zone => some zone.name == st.savedZone) with
        | none =>
          right; left
          exact ⟨"Selected zone not found in zones data", by simp [orderAttempt, hfind]⟩
        | some zone =>
          rcases o with m | ok
          · right; right
            exact ⟨zonesData, zone, m, rfl, hfind, by simp, by simp [orderAttempt, hfind]⟩
          · cases ok
            · right; right
              exact ⟨zonesData, zone, "Failed to send order data", rfl, hfind, by simp,
                by simp [orderAttempt, hfind]⟩
            · left
              exact ⟨zonesData, zone, rfl, hfind, rfl, by simp [orderAttempt, hfind]⟩

theorem handleOrder_confirmed_cases (st : CheckoutState) (an : Answers)
    (hauth : st.isAuthenticated = true)
    (hvalid : validateInputs st.name st.address st.phoneNumber = [])
    (hconf : an.isConfirmed = true) :
    (∃ zonesData zone, an.zones = .response true (.ok zonesData) ∧
        zonesData.find? (fun zone => some zone.name == st.savedZone) = some zone ∧
        an.order = .response true ∧
        handleOrder st an =
          [.swalFire, .fetchZones,
            .fetchOrder (authorizationHeader st.authToken) (buildOrderData st zone),
            .toastSuccess "Order placed successfully", .clearCart, .routerPush "/"]) ∨
    (∃ message, orderAttempt st an = ([.fetchZones], some message) ∧
        handleOrder st an =
          [.swalFire, .fetchZones, .consoleError "Error sending order data:" message,
            .toastError "Error placing the order"]) ∨
    (∃ zonesData zone message, an.zones = .response true (.ok zonesData) ∧
        zonesData.find? (fun zone => some zone.name == st.savedZone) = some zone ∧
        an.order ≠ .response true ∧
        handleOrder st an =
          [.swalFire, .fetchZones,
            .fetchOrder (authorizationHeader st.authToken) (buildOrderData st zone),
            .consoleError "Error sending order data:" message,
            .toastError "Error placing the order"]) := by
  rw [handleOrder_confirmed st an hauth hvalid hconf]
  rcases orderAttempt_cases st an with ⟨zs, z, hz, hf, ho, h⟩ | ⟨m, h⟩ | ⟨zs, z, m, hz, hf, ho, h⟩
  · left; exact ⟨zs, z, hz, hf, ho, by rw [h]⟩
  · right; left; exact ⟨m, h, by rw [h]; rfl⟩
  · right; right; exact ⟨zs, z, m, hz, hf, ho, by rw [h]; rfl⟩

theorem find_saved_zone (st : CheckoutState) (zonesData : List Zone) (zone : Zone)
    (hfind : zonesData.find? (fun zone => some zone.name == st.savedZone) = some zone) :
    zone ∈ zonesData ∧ some zone.name = st.savedZone := by
  refine ⟨List.mem_of_find?_eq_some hfind, ?_⟩
  have h := List.find?_some hfind
  simpa using h

theorem find_saved_zone_isSome (st : CheckoutState) (zonesData : List Zone) (zone : Zone)
    (hmem : zone ∈ zonesData) (hname : some zone.name = st.savedZone) :
    ∃ found, zonesData.find? (fun zone => some zone.name == st.savedZone) = some found := by
  cases h : zonesData.find? (fun zone => some zone.name == st.savedZone) with
  | some found => exact ⟨found, rfl⟩
  | none =>
    rw [List.find?_eq_none] at h
    have := h zone hmem
    simp [hname] at this

/-! ### Checkout: `handleOrder` -/

/-- C1: when the user is authenticated and `validateInputs` returns at least one
error, the run of `handleOrder` consists of exactly one effect, storing the
validator result as the field errors: no zone fetch, no order POST, no
confirmation dialog, no `clearCart` and no notification. -/
theorem handleOrder_invalid_input_stops (st : CheckoutState) (an : Answers)
    (hauth : st.isAuthenticated = true)
    (herr : validateInputs st.name st.address st.phoneNumber ≠ []) :
    handleOrder st an = [.setErrors (validateInputs st.name st.address st.phoneNumber)] ∧
    (handleOrder st an).countP Effect.isZoneFetch = 0 ∧
    (handleOrder st an).countP Effect.isOrderPost = 0 ∧
    Effect.swalFire ∉ handleOrder st an ∧
    Effect.clearCart ∉ handleOrder st an ∧
    (handleOrder st an).countP Effect.isNotification = 0 := by
  rw [handleOrder_invalid st an hauth herr]
  simp [Effect.isZoneFetch, Effect.isOrderPost, Effect.isNotification]

theorem handleOrder_invalid_input_stops_witness :
    invalidState.isAuthenticated = true ∧
    validateInputs invalidState.name invalidState.address invalidState.phoneNumber ≠ [] ∧
    handleOrder invalidState sampleAnswers = [.setErrors [("name", "Name is required.")]] :=
  ⟨by decide, by decide,
    (handleOrder_invalid_input_stops invalidState sampleAnswers (by decide) (by decide)).1⟩

/-- C2: with a non-empty cart, valid details, an authenticated and confirming
user, a zone directory fetched with `ok` that has an entry named as the saved
zone, and an order POST answered with `ok`, the run of `handleOrder` is: dialog,
zone fetch, order POST, success notification, `clearCart`, navigation to "/".
So `clearCart` is called exactly once, the success notification is emitted and
the router is pushed to "/". -/
theorem handleOrder_success (st : CheckoutState) (an : Answers) (zonesData : List Zone)
    (zone : Zone) (hcart : st.cart ≠ [])
    (hvalid : validateInputs st.name st.address st.phoneNumber = [])
    (hauth : st.isAuthenticated = true) (hconf : an.isConfirmed = true)
    (hzones : an.zones = .response true (.ok zonesData))
    (hmem : zone ∈ zonesData) (hname : some zone.name = st.savedZone)
    (hpost : an.order = .response true) :
    (∃ found, found ∈ zonesData ∧ some found.name = st.savedZone ∧
      handleOrder st an =
        [.swalFire, .fetchZones,
          .fetchOrder (authorizationHeader st.authToken) (buildOrderData st found),
          .toastSuccess "Order placed successfully", .clearCart, .routerPush "/"]) ∧
    (handleOrder st an).count .clearCart = 1 ∧
    Effect.toastSuccess "Order placed successfully" ∈ handleOrder st an ∧
    Effect.routerPush "/" ∈ handleOrder st an ∧
    (handleOrder st an).countP Effect.isNavigation = 1 := by
  have _ := hcart
  obtain ⟨found, hfind⟩ := find_saved_zone_isSome st zonesData zone hmem hname
  have htrace : handleOrder st an =
      [.swalFire, .fetchZones,
        .fetchOrder (authorizationHeader st.authToken) (buildOrderData st found),
        .toastSuccess "Order placed successfully", .clearCart, .routerPush "/"] := by
    rw [handleOrder_confirmed st an hauth hvalid hconf,
      orderAttempt_success st an zonesData found hzones hfind hpost]
  obtain ⟨hm, hn⟩ := find_saved_zone st zonesData found hfind
  refine ⟨⟨found, hm, hn, htrace⟩, ?_⟩
  rw [htrace]
  simp [Effect.isNavigation]

theorem handleOrder_success_witness :
    sampleState.cart ≠ [] ∧
    validateInputs sampleState.name sampleState.address sampleState.phoneNumber = [] ∧
    (handleOrder sampleState sampleAnswers).count .clearCart = 1 ∧
    Effect.toastSuccess "Order placed successfully" ∈ handleOrder sampleState sampleAnswers ∧
    Effect.routerPush "/" ∈ handleOrder sampleState sampleAnswers :=
  have h := handleOrder_success sampleState sampleAnswers sampleZones
    { id := 2, name := js "Dhaka" } (by decide) (by decide) (by decide) (by decide) rfl
    (by decide) (by decide) rfl
  ⟨by decide, by decide, h.2.1, h.2.2.1, h.2.2.2.1⟩

/-- C3: `clearCart` appears in a run of `handleOrder` only on the success path
(authenticated, valid input, confirmed, zone found in a directory fetched with
`ok`, order POST answered with `ok`); every run makes at most one order POST;
and in every confirmed run in which the zone fetch is rejected, is not `ok`,
has an unreadable body, or has no entry for the saved zone, or the order POST is
rejected or not `ok`, there is no `clearCart`, no navigation, and exactly one
notification, which is an error notification. -/
theorem handleOrder_cart_only_on_success (st : CheckoutState) (an : Answers) :
    (Effect.clearCart ∈ handleOrder st an →
      st.isAuthenticated = true ∧
      validateInputs st.name st.address st.phoneNumber = [] ∧
      an.isConfirmed = true ∧
      (∃ zonesData zone, an.zones = .response true (.ok zonesData) ∧ zone ∈ zonesData ∧
        some zone.name = st.savedZone) ∧
      an.order = .response true) ∧
    (handleOrder st an).countP Effect.isOrderPost ≤ 1 ∧
    (st.isAuthenticated = true →
      validateInputs st.name st.address st.phoneNumber = [] →
      an.isConfirmed = true →
      ((∃ message, an.zones = .rejected message) ∨
        (∃ json, an.zones = .response false json) ∨
        (∃ message, an.zones = .response true (.error message)) ∨
        (∃ zonesData, an.zones = .response true (.ok zonesData) ∧
          ∀ zone ∈ zonesData, some zone.name ≠ st.savedZone) ∨
        (∃ message, an.order = .rejected message) ∨
        an.order = .response false) →
      Effect.clearCart ∉ handleOrder st an ∧
      (handleOrder st an).countP Effect.isNavigation = 0 ∧
      (handleOrder st an).countP Effect.isErrorNotification = 1 ∧
      (handleOrder st an).countP Effect.isNotification = 1) := by
  cases hauth : st.isAuthenticated with
  | false => simp [handleOrder_unauthenticated st an hauth, Effect.isOrderPost]
  | true =>
    by_cases hvalid : validateInputs st.name st.address st.phoneNumber = []
    · cases hconf : an.isConfirmed with
      | false => simp [handleOrder_declined st an hauth hvalid hconf, Effect.isOrderPost]
      | true =>
        rcases handleOrder_confirmed_cases st an hauth hvalid hconf with
          ⟨zs, z, hz, hf, ho, h⟩ | ⟨m, -, h⟩ | ⟨zs, z, m, hz, hf, ho, h⟩
        · obtain ⟨hm, hn⟩ := find_saved_zone st zs z hf
          refine ⟨fun _ => ⟨rfl, hvalid, rfl, ⟨zs, z, hz, hm, hn⟩, ho⟩, ?_, ?_⟩
          · simp [h, Effect.isOrderPost]
          · intro _ _ _ hfail
            exfalso
            rcases hfail with ⟨m, hm⟩ | ⟨j, hj⟩ | ⟨m, hm⟩ | ⟨zs2, hz2, hall⟩ | ⟨m, hm⟩ | hm
            · rw [hz] at hm; cases hm
            · rw [hz] at hj; cases hj
            · rw [hz] at hm; cases hm
            · rw [hz] at hz2
              cases hz2
              exact hall z hm hn
            · rw [ho] at hm; cases hm
            · rw [ho] at hm; cases hm
        · simp [h, Effect.isOrderPost, Effect.isNavigation, Effect.isErrorNotification,
            Effect.isNotification]
        · simp [h, Effect.isOrderPost, Effect.isNavigation, Effect.isErrorNotification,
            Effect.isNotification]
    · simp [handleOrder_invalid st an hauth hvalid, Effect.isOrderPost, hvalid]

theorem handleOrder_cart_only_on_success_witness :
    Effect.clearCart ∉ handleOrder sampleState orderRefusedAnswers ∧
    (handleOrder sampleState orderRefusedAnswers).countP Effect.isNavigation = 0 ∧
    (handleOrder sampleState orderRefusedAnswers).countP Effect.isErrorNotification = 1 ∧
    (handleOrder sampleState orderRefusedAnswers).countP Effect.isNotification = 1 :=
  (handleOrder_cart_only_on_success sampleState orderRefusedAnswers).2.2
    (by decide) (by decide) (by decide) (Or.inr (Or.inr (Or.inr (Or.inr (Or.inr rfl)))))

/-- C4: in a confirmed run (authenticated, valid input) whose zone directory has
no entry with a name equal, code unit by code unit, to the saved zone name, or
whose zone fetch answers with a response that is not `ok`, `handleOrder` sends
no order POST, never calls `clearCart`, and emits the error notification: the
run is dialog, zone fetch, console diagnostic, error notification. -/
theorem handleOrder_zone_failure (st : CheckoutState) (an : Answers)
    (hauth : st.isAuthenticated = true)
    (hvalid : validateInputs st.name st.address st.phoneNumber = [])
    (hconf : an.isConfirmed = true)
    (hzone : (∃ json, an.zones = .response false json) ∨
      (∃ zonesData, an.zones = .response true (.ok zonesData) ∧
        ∀ zone ∈ zonesData, some zone.name ≠ st.savedZone)) :
    (∃ message, handleOrder st an =
      [.swalFire, .fetchZones, .consoleError "Error sending order data:" message,
        .toastError "Error placing the order"]) ∧
    (handleOrder st an).countP Effect.isOrderPost = 0 ∧
    Effect.clearCart ∉ handleOrder st an ∧
    Effect.toastError "Error placing the order" ∈ handleOrder st an := by
  have hno : ∀ zonesData zone, an.zones = .response true (.ok zonesData) →
      zonesData.find? (fun zone => some zone.name == st.savedZone) = some zone → False := by
    intro zs z hz hf
    obtain ⟨hm, hn⟩ := find_saved_zone st zs z hf
    rcases hzone with ⟨j, hj⟩ | ⟨zs2, hz2, hall⟩
    · rw [hz] at hj; cases hj
    · rw [hz] at hz2
      cases hz2
      exact hall z hm hn
  rcases handleOrder_confirmed_cases st an hauth hvalid hconf with
    ⟨zs, z, hz, hf, -, -⟩ | ⟨m, -, h⟩ | ⟨zs, z, -, hz, hf, -, -⟩
  · exact (hno zs z hz hf).elim
  · refine ⟨⟨m, h⟩, ?_⟩
    simp [h, Effect.isOrderPost]
  · exact (hno zs z hz hf).elim

theorem handleOrder_zone_failure_witness :
    (∀ zone ∈ [({ id := 1, name := js "dhaka" } : Zone)],
      some zone.name ≠ sampleState.savedZone) ∧
    (handleOrder sampleState zoneMissingAnswers).countP Effect.isOrderPost = 0 ∧
    Effect.clearCart ∉ handleOrder sampleState zoneMissingAnswers ∧
    Effect.toastError "Error placing the order" ∈ handleOrder sampleState zoneMissingAnswers :=
  ⟨by decide,
    (handleOrder_zone_failure sampleState zoneMissingAnswers (by decide) (by decide)
      (by decide) (Or.inr ⟨_, rfl, by decide⟩)).2⟩

/-- C5: when the user is not authenticated, whatever the form fields, the cart
and the answers of the outside world, the run of `handleOrder` consists of
exactly one effect, opening the login modal: no field error is recorded, no
confirmation dialog is shown, no request is made, no notification is emitted
and `clearCart` is not called; the form fields are never looked at. -/
theorem handleOrder_requires_authentication (st : CheckoutState) (an : Answers)
    (hauth : st.isAuthenticated = false) :
    handleOrder st an = [.openLoginModal] ∧
    (handleOrder st an).countP Effect.isSetErrors = 0 ∧
    Effect.swalFire ∉ handleOrder st an ∧
    (handleOrder st an).countP Effect.isZoneFetch = 0 ∧
    (handleOrder st an).countP Effect.isOrderPost = 0 ∧
    (handleOrder st an).countP Effect.isNotification = 0 ∧
    Effect.clearCart ∉ handleOrder st an ∧
    (∀ name address phoneNumber : JSString,
      handleOrder { st with name := name, address := address, phoneNumber := phoneNumber } an =
        handleOrder st an) := by
  refine ⟨handleOrder_unauthenticated st an hauth, ?_, ?_, ?_, ?_, ?_, ?_, ?_⟩ <;>
    simp [handleOrder_unauthenticated st an hauth, Effect.isSetErrors, Effect.isZoneFetch,
      Effect.isOrderPost, Effect.isNotification]
  intro name address phoneNumber
  exact handleOrder_unauthenticated _ an hauth

theorem handleOrder_requires_authentication_witness :
    unauthenticatedState.isAuthenticated = false ∧
    handleOrder unauthenticatedState sampleAnswers = [.openLoginModal] :=
  ⟨by decide, (handleOrder_requires_authentication unauthenticatedState sampleAnswers
    (by decide)).1⟩

/-- C6: in an authenticated run with valid input whose dialog result is not
confirmed, the run of `handleOrder` is the dialog alone: no zone fetch, no order
POST, no notification, no write of the field errors, no `clearCart` and no
navigation. -/
theorem handleOrder_not_confirmed (st : CheckoutState) (an : Answers)
    (hauth : st.isAuthenticated = true)
    (hvalid : validateInputs st.name st.address st.phoneNumber = [])
    (hconf : an.isConfirmed = false) :
    handleOrder st an = [.swalFire] ∧
    (handleOrder st an).countP Effect.isZoneFetch = 0 ∧
    (handleOrder st an).countP Effect.isOrderPost = 0 ∧
    (handleOrder st an).countP Effect.isNotification = 0 ∧
    (handleOrder st an).countP Effect.isSetErrors = 0 ∧
    Effect.clearCart ∉ handleOrder st an ∧
    (handleOrder st an).countP Effect.isNavigation = 0 := by
  rw [handleOrder_declined st an hauth hvalid hconf]
  simp [Effect.isZoneFetch, Effect.isOrderPost, Effect.isNotification, Effect.isSetErrors,
    Effect.isNavigation]

theorem handleOrder_not_confirmed_witness :
    sampleState.isAuthenticated = true ∧
    validateInputs sampleState.name sampleState.address sampleState.phoneNumber = [] ∧
    declinedAnswers.isConfirmed = false ∧
    handleOrder sampleState declinedAnswers = [.swalFire] :=
  ⟨by decide, by decide, by decide,
    (handleOrder_not_confirmed sampleState declinedAnswers (by decide) (by decide)
      (by decide)).1⟩

/-! ### Validation: `validateInputs` -/

/-- C7: the phone rules of `validateInputs` are checked in the order required,
length, format, and at most one phone error is reported: an empty phone gets the
required error; a non-empty phone whose length is not 11 gets the length error
(for instance "123"); and the format error is reported exactly for the phones of
length 11 that fail `phoneRegex`. -/
theorem validateInputs_phone_priority (name address phone : JSString) :
    (phone = [] →
      (validateInputs name address phone).get "phone" = some "Phone number is required.") ∧
    (phone ≠ [] → phone.length ≠ 11 →
      (validateInputs name address phone).get "phone" =
        some "Phone number must be exactly 11 digits.") ∧
    ((validateInputs name address phone).get "phone" =
        some "Please enter a valid Bangladeshi phone number." ↔
      phone.length = 11 ∧ phoneRegex.test phone = false) ∧
    (objectKeys (validateInputs name address phone)).count "phone" ≤ 1 ∧
    (validateInputs name address (js "123")).get "phone" =
      some "Phone number must be exactly 11 digits." := by
  refine ⟨?_, ?_, ?_, ?_, ?_⟩
  · intro hp
    rw [validateInputs_eq]
    by_cases hn : name = [] <;> by_cases ha : address = [] <;>
      simp [hn, ha, hp, phoneErrors, ErrorSet.get, List.lookup]
  · intro hp hl
    rw [validateInputs_eq]
    by_cases hn : name = [] <;> by_cases ha : address = [] <;>
      simp [hn, ha, hp, hl, phoneErrors, ErrorSet.get, List.lookup]
  · rw [validateInputs_eq]
    by_cases hn : name = [] <;> by_cases ha : address = [] <;>
      by_cases hp : phone = [] <;> by_cases hl : phone.length = 11 <;>
      cases ht : phoneRegex.test phone <;>
      simp_all [phoneErrors, ErrorSet.get, List.lookup]
  · rw [validateInputs_eq]
    by_cases hn : name = [] <;> by_cases ha : address = [] <;>
      by_cases hp : phone = [] <;> by_cases hl : phone.length = 11 <;>
      cases ht : phoneRegex.test phone <;>
      simp [hn, ha, hp, hl, ht, phoneErrors, objectKeys]
  · rw [validateInputs_eq]
    by_cases hn : name = [] <;> by_cases ha : address = [] <;>
      simp [hn, ha, phoneErrors, ErrorSet.get, List.lookup, js, utf16Units]

theorem validateInputs_phone_priority_witness :
    (validateInputs (js "A") (js "B") []).get "phone" = some "Phone number is required." ∧
    (validateInputs (js "A") (js "B") (js "0171234567")).get "phone" =
      some "Phone number must be exactly 11 digits." ∧
    (validateInputs (js "A") (js "B") (js "01212345678")).get "phone" =
      some "Please enter a valid Bangladeshi phone number." :=
  ⟨(validateInputs_phone_priority (js "A") (js "B") []).1 rfl,
    (validateInputs_phone_priority (js "A") (js "B") (js "0171234567")).2.1
      (by decide) (by decide),
    (validateInputs_phone_priority (js "A") (js "B") (js "01212345678")).2.2.1.2
      ⟨by decide, by decide⟩⟩

/-- C8: `validateInputs` checks the three fields independently and has no entry
for a field without error: the result has the key `name` iff the name is empty,
the key `address` iff the address is empty, and the key `phone` iff the phone is
empty, or its length is not 11, or it fails `phoneRegex`; every key of the result
is one of these three; and the all-empty input yields exactly the keys `name`,
`address`, `phone`. -/
theorem validateInputs_fields_independent (name address phone : JSString) :
    ("name" ∈ objectKeys (validateInputs name address phone) ↔ name = []) ∧
    ("address" ∈ objectKeys (validateInputs name address phone) ↔ address = []) ∧
    ("phone" ∈ objectKeys (validateInputs name address phone) ↔
      (phone = [] ∨ phone.length ≠ 11 ∨ phoneRegex.test phone = false)) ∧
    (∀ key ∈ objectKeys (validateInputs name address phone),
      key = "name" ∨ key = "address" ∨ key = "phone") ∧
    objectKeys (validateInputs (js "") (js "") (js "")) = ["name", "address", "phone"] := by
  refine ⟨?_, ?_, ?_, ?_, by decide⟩ <;>
    rw [validateInputs_eq] <;>
    by_cases hn : name = [] <;> by_cases ha : address = [] <;>
    by_cases hp : phone = [] <;> by_cases hl : phone.length = 11 <;>
    cases ht : phoneRegex.test phone <;>
    simp_all [phoneErrors, objectKeys]

theorem validateInputs_fields_independent_witness :
    "name" ∈ objectKeys (validateInputs [] (js "B") (js "01712345678")) ∧
    "address" ∉ objectKeys (validateInputs [] (js "B") (js "01712345678")) ∧
    "phone" ∉ objectKeys (validateInputs [] (js "B") (js "01712345678")) :=
  have h := validateInputs_fields_independent [] (js "B") (js "01712345678")
  ⟨h.1.2 rfl, fun hm => absurd (h.2.1.1 hm) (by decide),
    fun hm => absurd (h.2.2.1.1 hm) (by decide)⟩

/-- C9: for every non-empty name, every non-empty address and every phone made
of "01", one digit in 3..9 and eight further ASCII digits, `validateInputs`
returns the empty error set. -/
theorem validateInputs_accepts_valid (name address : JSString) (d : Nat) (ds : List Nat)
    (hname : name ≠ []) (haddress : address ≠ [])
    (hd : '3'.toNat ≤ d ∧ d ≤ '9'.toNat) (hlen : ds.length = 8)
    (hds : ∀ u ∈ ds, '0'.toNat ≤ u ∧ u ≤ '9'.toNat) :
    validateInputs name address (js "01" ++ d :: ds) = [] := by
  match ds, hlen, hds with
  | [d1, d2, d3, d4, d5, d6, d7, d8], _, hds =>
    simp only [List.mem_cons, forall_eq_or_imp, Char.reduceToNat] at hds hd
    obtain ⟨h1, h2, h3, h4, h5, h6, h7, h8, -⟩ := hds
    have ht := phoneRegex_accepts d d1 d2 d3 d4 d5 d6 d7 d8 hd h1 h2 h3 h4 h5 h6 h7 h8
    have hjs : js "01" = [48, 49] := by decide
    rw [validateInputs_eq, hjs]
    simp [hname, haddress, phoneErrors, ht]

theorem validateInputs_accepts_valid_witness :
    validateInputs (js "A") (js "B") (js "01712345678") = [] :=
  validateInputs_accepts_valid (js "A") (js "B") 55 [49, 50, 51, 52, 53, 54, 55, 56]
    (by decide) (by decide) (by decide) (by decide) (by decide)

/-- C10, as stated, fails: the name " " and the address " " consist only of white
space, and `validateInputs` reports no required error for either (it tests the
value as entered and never trims). -/
theorem validateInputs_trim_counterexample :
    (∀ u ∈ js " ", isWhiteSpace u = true) ∧
    (validateInputs (js " ") (js " ") (js "01712345678")).get "name" = none ∧
    (validateInputs (js " ") (js " ") (js "01712345678")).get "address" = none ∧
    ¬ (∀ name address phone : JSString, (∀ u ∈ name, isWhiteSpace u = true) →
        (validateInputs name address phone).get "name" = some "Name is required.") ∧
    ¬ (∀ name address phone : JSString, (∀ u ∈ address, isWhiteSpace u = true) →
        (validateInputs name address phone).get "address" = some "Address is required.") := by
  refine ⟨by decide, by decide, by decide, ?_, ?_⟩
  · intro h
    exact absurd (h (js " ") (js " ") (js "01712345678") (by decide)) (by decide)
  · intro h
    exact absurd (h (js " ") (js " ") (js "01712345678") (by decide)) (by decide)

/-- C10, amended: the name and address rules of `validateInputs` are applied to
the value as entered, without trimming: the required error of the name
(respectively the address) is reported exactly when that field is the empty
string, so a non-empty field, white space included, gets no entry. -/
theorem validateInputs_required_iff_empty (name address phone : JSString) :
    ((validateInputs name address phone).get "name" = some "Name is required." ↔
      name = []) ∧
    ((validateInputs name address phone).get "address" = some "Address is required." ↔
      address = []) ∧
    (name ≠ [] → (validateInputs name address phone).get "name" = none) ∧
    (address ≠ [] → (validateInputs name address phone).get "address" = none) := by
  refine ⟨?_, ?_, ?_, ?_⟩ <;>
    rw [validateInputs_eq] <;>
    by_cases hn : name = [] <;> by_cases ha : address = [] <;>
    by_cases hp : phone = [] <;> by_cases hl : phone.length = 11 <;>
    cases ht : phoneRegex.test phone <;>
    simp_all [phoneErrors, ErrorSet.get, List.lookup]

theorem validateInputs_required_iff_empty_witness :
    (validateInputs [] [] (js "01712345678")).get "name" = some "Name is required." ∧
    (validateInputs [] [] (js "01712345678")).get "address" = some "Address is required." ∧
    (validateInputs (js " ") (js " ") (js "01712345678")).get "name" = none ∧
    (validateInputs (js " ") (js " ") (js "01712345678")).get "address" = none :=
  ⟨(validateInputs_required_iff_empty [] [] (js "01712345678")).1.2 rfl,
    (validateInputs_required_iff_empty [] [] (js "01712345678")).2.1.2 rfl,
    (validateInputs_required_iff_empty (js " ") (js " ") (js "01712345678")).2.2.1
      (by decide),
    (validateInputs_required_iff_empty (js " ") (js " ") (js "01712345678")).2.2.2
      (by decide)⟩

/-! ### Helper lemmas on the regular expression matcher -/

theorem mem_run_char (c : Char) (s rest : JSString) :
    rest ∈ (Regex.char c).run s ↔ s = c.toNat :: rest := by
  cases s with
  | nil => simp [Regex.run]
  | cons u t =>
    by_cases h : u = c.toNat <;> simp [Regex.run, h, eq_comm]

theorem mem_run_range (lo hi : Char) (s rest : JSString) :
    rest ∈ (Regex.range lo hi).run s ↔ ∃ u, s = u :: rest ∧ lo.toNat ≤ u ∧ u ≤ hi.toNat := by
  cases s with
  | nil => simp [Regex.run]
  | cons u t =>
    by_cases h : lo.toNat ≤ u ∧ u ≤ hi.toNat
    · simp only [Regex.run, h, and_self, if_true, List.mem_singleton]
      constructor
      · rintro rfl; exact ⟨u, rfl, h⟩
      · rintro ⟨v, hv, -⟩
        cases hv; rfl
    · simp only [Regex.run, h, if_false, List.not_mem_nil, false_iff]
      rintro ⟨v, hv, hb⟩
      cases hv
      exact h hb

theorem mem_run_digit (s rest : JSString) :
    rest ∈ Regex.digit.run s ↔ ∃ u, s = u :: rest ∧ 48 ≤ u ∧ u ≤ 57 := by
  cases s with
  | nil => simp [Regex.run]
  | cons u t =>
    by_cases h : 48 ≤ u ∧ u ≤ 57
    · simp only [Regex.run, h, and_self, if_true, List.mem_singleton]
      constructor
      · rintro rfl; exact ⟨u, rfl, h⟩
      · rintro ⟨v, hv, -⟩
        cases hv; rfl
    · simp only [Regex.run, h, if_false, List.not_mem_nil, false_iff]
      rintro ⟨v, hv, hb⟩
      cases hv
      exact h hb

theorem mem_run_seq (a b : Regex) (s rest : JSString) :
    rest ∈ (Regex.seq a b).run s ↔ ∃ mid, mid ∈ a.run s ∧ rest ∈ b.run mid := by
  simp [Regex.run, List.mem_flatMap]

theorem mem_run_alt (a b : Regex) (s rest : JSString) :
    rest ∈ (Regex.alt a b).run s ↔ rest ∈ a.run s ∨ rest ∈ b.run s := by
  simp [Regex.run]

theorem mem_iterate_zero (f : JSString → List JSString) (s rest : JSString) :
    rest ∈ iterate f 0 s ↔ rest = s := by
  simp [iterate]

theorem mem_iterate_succ (f : JSString → List JSString) (n : Nat) (s rest : JSString) :
    rest ∈ iterate f (n + 1) s ↔ ∃ mid, mid ∈ f s ∧ rest ∈ iterate f n mid := by
  simp [iterate, List.mem_flatMap]

theorem mem_run_times (n : Nat) (a : Regex) (s rest : JSString) :
    rest ∈ (Regex.times n a).run s ↔ rest ∈ iterate a.run n s := by
  simp [Regex.run]

theorem test_iff (r : Regex) (s : JSString) : r.test s = true ↔ [] ∈ r.run s := by
  simp [Regex.test, List.any_eq_true, List.isEmpty_iff]

theorem mem_run_tail (s rest : JSString) :
    rest ∈ (Regex.seq (.range '3' '9') (.times 8 .digit)).run s ↔
      ∃ d d1 d2 d3 d4 d5 d6 d7 d8,
        s = d :: d1 :: d2 :: d3 :: d4 :: d5 :: d6 :: d7 :: d8 :: rest ∧
        (51 ≤ d ∧ d ≤ 57) ∧ (48 ≤ d1 ∧ d1 ≤ 57) ∧ (48 ≤ d2 ∧ d2 ≤ 57) ∧ (48 ≤ d3 ∧ d3 ≤ 57) ∧
        (48 ≤ d4 ∧ d4 ≤ 57) ∧ (48 ≤ d5 ∧ d5 ≤ 57) ∧ (48 ≤ d6 ∧ d6 ≤ 57) ∧
        (48 ≤ d7 ∧ d7 ≤ 57) ∧ (48 ≤ d8 ∧ d8 ≤ 57) := by
  simp only [mem_run_seq, mem_run_range, mem_run_times, mem_run_digit, mem_iterate_succ,
    mem_iterate_zero, Char.reduceToNat]
  constructor
  · rintro ⟨m0, ⟨d, rfl, hd⟩, m1, ⟨d1, rfl, h1⟩, m2, ⟨d2, rfl, h2⟩, m3, ⟨d3, rfl, h3⟩,
      m4, ⟨d4, rfl, h4⟩, m5, ⟨d5, rfl, h5⟩, m6, ⟨d6, rfl, h6⟩, m7, ⟨d7, rfl, h7⟩,
      m8, ⟨d8, rfl, h8⟩, rfl⟩
    exact ⟨d, d1, d2, d3, d4, d5, d6, d7, d8, rfl, hd, h1, h2, h3, h4, h5, h6, h7, h8⟩
  · rintro ⟨d, d1, d2, d3, d4, d5, d6, d7, d8, rfl, hd, h1, h2, h3, h4, h5, h6, h7, h8⟩
    exact ⟨_, ⟨d, rfl, hd⟩, _, ⟨d1, rfl, h1⟩, _, ⟨d2, rfl, h2⟩, _, ⟨d3, rfl, h3⟩,
      _, ⟨d4, rfl, h4⟩, _, ⟨d5, rfl, h5⟩, _, ⟨d6, rfl, h6⟩, _, ⟨d7, rfl, h7⟩,
      _, ⟨d8, rfl, h8⟩, rfl⟩

theorem mem_run_lits_cons (c : Char) (cs : List Char) (r : Regex) (s rest : JSString) :
    rest ∈ (Regex.lits (c :: cs) r).run s ↔
      ∃ mid, s = c.toNat :: mid ∧ rest ∈ (Regex.lits cs r).run mid := by
  simp [Regex.lits, mem_run_seq, mem_run_char]

theorem mem_run_lits_nil (r : Regex) (s rest : JSString) :
    rest ∈ (Regex.lits [] r).run s ↔ rest ∈ r.run s := by
  simp [Regex.lits]

theorem phoneRegexNational_test_iff (s : JSString) :
    phoneRegexNational.test s = true ↔
      ∃ d d1 d2 d3 d4 d5 d6 d7 d8,
        s = [48, 49, d, d1, d2, d3, d4, d5, d6, d7, d8] ∧
        (51 ≤ d ∧ d ≤ 57) ∧ (48 ≤ d1 ∧ d1 ≤ 57) ∧ (48 ≤ d2 ∧ d2 ≤ 57) ∧ (48 ≤ d3 ∧ d3 ≤ 57) ∧
        (48 ≤ d4 ∧ d4 ≤ 57) ∧ (48 ≤ d5 ∧ d5 ≤ 57) ∧ (48 ≤ d6 ∧ d6 ≤ 57) ∧
        (48 ≤ d7 ∧ d7 ≤ 57) ∧ (48 ≤ d8 ∧ d8 ≤ 57) := by
  rw [test_iff, phoneRegexNational]
  simp only [mem_run_lits_cons, mem_run_lits_nil, mem_run_tail, Char.reduceToNat]
  constructor
  · rintro ⟨m0, rfl, m1, rfl, d, d1, d2, d3, d4, d5, d6, d7, d8, rfl, h⟩
    exact ⟨d, d1, d2, d3, d4, d5, d6, d7, d8, rfl, h⟩
  · rintro ⟨d, d1, d2, d3, d4, d5, d6, d7, d8, rfl, h⟩
    exact ⟨_, rfl, _, rfl, d, d1, d2, d3, d4, d5, d6, d7, d8, rfl, h⟩

theorem phoneRegexIntl_test_iff (s : JSString) :
    phoneRegexIntl.test s = true ↔
      ∃ d d1 d2 d3 d4 d5 d6 d7 d8,
        s = [43, 56, 56, 48, 49, d, d1, d2, d3, d4, d5, d6, d7, d8] ∧
        (51 ≤ d ∧ d ≤ 57) ∧ (48 ≤ d1 ∧ d1 ≤ 57) ∧ (48 ≤ d2 ∧ d2 ≤ 57) ∧ (48 ≤ d3 ∧ d3 ≤ 57) ∧
        (48 ≤ d4 ∧ d4 ≤ 57) ∧ (48 ≤ d5 ∧ d5 ≤ 57) ∧ (48 ≤ d6 ∧ d6 ≤ 57) ∧
        (48 ≤ d7 ∧ d7 ≤ 57) ∧ (48 ≤ d8 ∧ d8 ≤ 57) := by
  rw [test_iff, phoneRegexIntl]
  simp only [mem_run_lits_cons, mem_run_lits_nil, mem_run_tail, Char.reduceToNat]
  constructor
  · rintro ⟨m0, rfl, m1, rfl, m2, rfl, m3, rfl, m4, rfl,
      d, d1, d2, d3, d4, d5, d6, d7, d8, rfl, h⟩
    exact ⟨d, d1, d2, d3, d4, d5, d6, d7, d8, rfl, h⟩
  · rintro ⟨d, d1, d2, d3, d4, d5, d6, d7, d8, rfl, h⟩
    exact ⟨_, rfl, _, rfl, _, rfl, _, rfl, _, rfl, d, d1, d2, d3, d4, d5, d6, d7, d8, rfl, h⟩

theorem phoneRegex_test_iff (s : JSString) :
    phoneRegex.test s = true ↔
      phoneRegexIntl.test s = true ∨ phoneRegexNational.test s = true := by
  have h : phoneRegex = .alt phoneRegexIntl phoneRegexNational := rfl
  rw [test_iff, test_iff, test_iff, h, mem_run_alt]

theorem excessBits_of_lt (fuel n : Nat) (h : n < 2 ^ 53) : excessBits fuel n = 0 := by
  cases fuel with
  | zero => rfl
  | succ fuel => simp only [excessBits, if_pos h]

theorem shiftRight_eq_zero_of_lt (n k : Nat) (hk : 53 ≤ k) (h : n < 2 ^ 53) :
    n >>> k = 0 := by
  rw [Nat.shiftRight_eq_div_pow]
  exact Nat.div_eq_of_lt (Nat.lt_of_lt_of_le h (Nat.pow_le_pow_right (by decide) hk))

theorem roundDouble_of_safe (x : Int) (h : isSafeInteger x = true) : roundDouble x = some x := by
  have hlt : x.natAbs < 2 ^ 53 := by simpa [isSafeInteger] using h
  have hround : roundNat x.natAbs = x.natAbs := by
    simp [roundNat, excessBits_of_lt _ _ hlt]
  have hfinite : x.natAbs >>> 1024 = 0 := by
    exact shiftRight_eq_zero_of_lt x.natAbs 1024 (by decide) hlt
  have hsign : (if x < 0 then -(x.natAbs : Int) else (x.natAbs : Int)) = x := by
    split <;> omega
  simp only [roundDouble, hround, hfinite, if_true, hsign]

theorem totalPrice_foldl (cart : List CartItem) (start : Int)
    (hitems : ∀ item ∈ cart, isSafeInteger (item.quantity * item.price) = true)
    (hsums : ∀ k : Nat, isSafeInteger
      (start + ((cart.take k).map (fun item => item.quantity * item.price)).sum) = true) :
    cart.foldl (fun total item => jsAdd total (jsMul (some item.quantity) (some item.price)))
        (some start) =
      some (start + (cart.map (fun item => item.quantity * item.price)).sum) := by
  induction cart generalizing start with
  | nil => simp
  | cons item rest ih =>
    have hprod := hitems item (List.mem_cons_self _ _)
    have hone := hsums 1
    simp only [List.take_succ_cons, List.take_zero, List.map_cons, List.map_nil,
      List.sum_cons, List.sum_nil, add_zero] at hone
    have hstep : jsAdd (some start) (jsMul (some item.quantity) (some item.price)) =
        some (start + item.quantity * item.price) := by
      simp only [jsMul, roundDouble_of_safe _ hprod, jsAdd, roundDouble_of_safe _ hone]
    rw [List.foldl_cons, hstep, ih (start + item.quantity * item.price)
      (fun it hit => hitems it (List.mem_cons_of_mem _ hit))]
    · simp only [List.map_cons, List.sum_cons, add_assoc]
    · intro k
      have hk := hsums (k + 1)
      simpa only [List.take_succ_cons, List.map_cons, List.sum_cons, add_assoc] using hk

/-! ### The order body and the total price -/

/-- C11: the body of every order request made by `handleOrder` is determined by the
cart, the zone directory, the saved zone name and the customer inputs: its
`zone_id` is the id of the first directory entry whose name equals the saved zone
name, its `product` list has one entry per cart line, in cart order, with the
id and the quantity of that line, and its `customer` holds the name, address and
phone as entered. Such a request is made in every confirmed run with a
directory fetched with `ok` that has the saved zone. -/
theorem handleOrder_order_body (st : CheckoutState) (an : Answers) :
    (∀ authorization body, Effect.fetchOrder authorization body ∈ handleOrder st an →
      ∃ zonesData zone before after,
        an.zones = .response true (.ok zonesData) ∧
        zonesData = before ++ zone :: after ∧
        (∀ earlier ∈ before, some earlier.name ≠ st.savedZone) ∧
        some zone.name = st.savedZone ∧
        body.zone_id = zone.id ∧
        body.product.length = st.cart.length ∧
        (∀ i : Nat, body.product[i]? =
          (st.cart[i]?).map (fun item => { product_id := item.id, quantity := item.quantity })) ∧
        body.customer = { name := st.name, address := st.address, phone := st.phoneNumber }) ∧
    (st.isAuthenticated = true →
      validateInputs st.name st.address st.phoneNumber = [] →
      an.isConfirmed = true →
      ∀ zonesData zone, an.zones = .response true (.ok zonesData) → zone ∈ zonesData →
        some zone.name = st.savedZone →
        ∃ authorization body, Effect.fetchOrder authorization body ∈ handleOrder st an) := by
  have key : ∀ zonesData zone body, an.zones = .response true (.ok zonesData) →
      zonesData.find? (fun zone => some zone.name == st.savedZone) = some zone →
      body = buildOrderData st zone →
      ∃ zonesData zone before after,
        an.zones = .response true (.ok zonesData) ∧
        zonesData = before ++ zone :: after ∧
        (∀ earlier ∈ before, some earlier.name ≠ st.savedZone) ∧
        some zone.name = st.savedZone ∧
        body.zone_id = zone.id ∧
        body.product.length = st.cart.length ∧
        (∀ i : Nat, body.product[i]? =
          (st.cart[i]?).map (fun item => { product_id := item.id, quantity := item.quantity })) ∧
        body.customer = { name := st.name, address := st.address, phone := st.phoneNumber } := by
    intro zs z body hz hf hb
    obtain ⟨hp, before, after, hsplit, hbefore⟩ := List.find?_eq_some.1 hf
    refine ⟨zs, z, before, after, hz, hsplit, ?_, by simpa using hp, ?_, ?_, ?_, ?_⟩
    · intro earlier he
      have := hbefore earlier he
      simpa using this
    · rw [hb]; rfl
    · rw [hb]; simp [buildOrderData]
    · intro i; rw [hb]; simp [buildOrderData]
    · rw [hb]; rfl
  constructor
  · intro authorization body hmem
    cases hauth : st.isAuthenticated with
    | false => simp [handleOrder_unauthenticated st an hauth] at hmem
    | true =>
      by_cases hvalid : validateInputs st.name st.address st.phoneNumber = []
      · cases hconf : an.isConfirmed with
        | false => simp [handleOrder_declined st an hauth hvalid hconf] at hmem
        | true =>
          rcases handleOrder_confirmed_cases st an hauth hvalid hconf with
            ⟨zs, z, hz, hf, -, h⟩ | ⟨m, -, h⟩ | ⟨zs, z, m, hz, hf, -, h⟩
          · rw [h] at hmem
            simp at hmem
            exact key zs z body hz hf hmem.2
          · rw [h] at hmem
            simp at hmem
          · rw [h] at hmem
            simp at hmem
            exact key zs z body hz hf hmem.2
      · simp [handleOrder_invalid st an hauth hvalid] at hmem
  · intro hauth hvalid hconf zs z hz hm hn
    obtain ⟨found, hfind⟩ := find_saved_zone_isSome st zs z hm hn
    rcases handleOrder_confirmed_cases st an hauth hvalid hconf with
      ⟨zs2, z2, -, -, -, h⟩ | ⟨m, hatt, -⟩ | ⟨zs2, z2, m, -, -, -, h⟩
    · exact ⟨authorizationHeader st.authToken, buildOrderData st z2, by rw [h]; simp⟩
    · exfalso
      rcases ho : an.order with mo | ok
      · simp [orderAttempt, hz, hfind, ho] at hatt
      · cases ok <;> simp [orderAttempt, hz, hfind, ho] at hatt
    · exact ⟨authorizationHeader st.authToken, buildOrderData st z2, by rw [h]; simp⟩

theorem handleOrder_order_body_witness :
    ∃ authorization body,
      Effect.fetchOrder authorization body ∈ handleOrder sampleState sampleAnswers :=
  (handleOrder_order_body sampleState sampleAnswers).2 (by decide) (by decide) (by decide)
    sampleZones { id := 2, name := js "Dhaka" } rfl (by decide) (by decide)

/-- C12, as stated, fails: in the cart with one line of quantity 94906267 and
price 94906267, both safe integers, the sum of quantity times price is
9007199515875289, and the total price the page computes is the double
9007199515875288. -/
theorem totalPrice_rounding_counterexample :
    (∀ item ∈ largeCart,
      isSafeInteger item.quantity = true ∧ isSafeInteger item.price = true) ∧
    (largeCart.map (fun item => item.quantity * item.price)).sum = 9007199515875289 ∧
    totalPrice largeCart = some 9007199515875288 ∧
    totalPrice largeCart ≠ some ((largeCart.map (fun item => item.quantity * item.price)).sum) ∧
    ¬ (∀ cart : List CartItem,
        totalPrice cart = some ((cart.map (fun item => item.quantity * item.price)).sum)) := by
  refine ⟨by decide, by decide, by decide, by decide, ?_⟩
  intro h
  exact absurd (h largeCart) (by decide)

/-- C12, amended: for every cart whose lines have a quantity and a price that are
safe integers, whose products quantity times price are safe integers, and whose
partial sums of these products, in cart order, are safe integers, the total
price shown on the checkout page (the `reduce` from 0) is the sum over the cart
lines of quantity times price; and it is 0 for the empty cart. -/
theorem totalPrice_eq_sum_of_safe (cart : List CartItem)
    (hfields : ∀ item ∈ cart,
      isSafeInteger item.quantity = true ∧ isSafeInteger item.price = true)
    (hproducts : ∀ item ∈ cart, isSafeInteger (item.quantity * item.price) = true)
    (hsums : ∀ k : Nat, isSafeInteger
      (((cart.take k).map (fun item => item.quantity * item.price)).sum) = true) :
    totalPrice cart = some ((cart.map (fun item => item.quantity * item.price)).sum) ∧
    totalPrice [] = some 0 := by
  have _ := hfields
  refine ⟨?_, rfl⟩
  rw [totalPrice, totalPrice_foldl cart 0 hproducts (by simpa using hsums)]
  simp

theorem totalPrice_eq_sum_of_safe_witness :
    totalPrice sampleCart = some 120 ∧
    (sampleCart.map (fun item => item.quantity * item.price)).sum = 120 :=
  ⟨(totalPrice_eq_sum_of_safe sampleCart (by decide) (by decide)
      (by
        intro k
        match k with
        | 0 => decide
        | k + 1 => simp [sampleCart, isSafeInteger])).1,
    by decide⟩

/-! ### The cart sidebar: `handleRemoveQuantity` -/

/-- C13: for every cart item with quantity 1, `handleRemoveQuantity` calls
`removeItemFromCart` with that item and does not call `decreaseQuantity`; for
every item with another quantity it calls `decreaseQuantity` (with the item
whose quantity is lowered by one) and does not call `removeItemFromCart`. -/
theorem handleRemoveQuantity_routes (item : CartItem) :
    (item.quantity = 1 →
      handleRemoveQuantity item = [.removeItemFromCart item] ∧
      ∀ passed, CartCall.decreaseQuantity passed ∉ handleRemoveQuantity item) ∧
    (item.quantity ≠ 1 →
      handleRemoveQuantity item =
        [.decreaseQuantity { item with quantity := item.quantity - 1 }] ∧
      ∀ passed, CartCall.removeItemFromCart passed ∉ handleRemoveQuantity item) := by
  constructor
  · intro h
    simp [handleRemoveQuantity, h]
  · intro h
    simp [handleRemoveQuantity, h]

theorem handleRemoveQuantity_routes_witness :
    handleRemoveQuantity { sampleItem with quantity := 1 } =
      [.removeItemFromCart { sampleItem with quantity := 1 }] ∧
    handleRemoveQuantity sampleItem = [.decreaseQuantity { sampleItem with quantity := 1 }] :=
  ⟨((handleRemoveQuantity_routes { sampleItem with quantity := 1 }).1 (by decide)).1,
    ((handleRemoveQuantity_routes sampleItem).2 (by decide)).1⟩

/-- C14 fails at quantity 2: the sample item has quantity 2, `handleRemoveQuantity`
passes it to `decreaseQuantity` with its quantity already lowered to 1, so the
passed item has `item.quantity - 1 = 0`, and `decreaseQuantity` leaves the cart
entry with quantity 0 instead of 1. In general the entry ends at the original
quantity minus 2. -/
theorem handleRemoveQuantity_decrements_twice :
    sampleItem.quantity = 2 ∧
    handleRemoveQuantity sampleItem = [.decreaseQuantity { sampleItem with quantity := 1 }] ∧
    decreaseQuantity [sampleItem] { sampleItem with quantity := 1 } =
      [{ sampleItem with quantity := 0 }] ∧
    ¬ (∀ item : CartItem, 2 ≤ item.quantity →
        ∀ passed, CartCall.decreaseQuantity passed ∈ handleRemoveQuantity item →
          1 ≤ passed.quantity - 1) ∧
    ¬ (∀ item : CartItem, 2 ≤ item.quantity →
        ∀ passed, CartCall.decreaseQuantity passed ∈ handleRemoveQuantity item →
          ∀ entry ∈ decreaseQuantity [item] passed,
            entry.quantity = item.quantity - 1 ∧ 1 ≤ entry.quantity) ∧
    (∀ item : CartItem, item.quantity ≠ 1 →
        ∀ passed, CartCall.decreaseQuantity passed ∈ handleRemoveQuantity item →
          ∀ entry ∈ decreaseQuantity [item] passed, entry.quantity = item.quantity - 2) := by
  refine ⟨by decide, by decide, by decide, ?_, ?_, ?_⟩
  · intro h
    exact absurd (h sampleItem (by decide) { sampleItem with quantity := 1 } (by decide))
      (by decide)
  · intro h
    exact absurd
      (h sampleItem (by decide) { sampleItem with quantity := 1 } (by decide)
        { sampleItem with quantity := 0 } (by decide)).2
      (by decide)
  · intro item hq passed hp entry he
    simp [handleRemoveQuantity, hq] at hp
    subst hp
    simp [decreaseQuantity] at he
    subst he
    show item.quantity - 1 - 1 = item.quantity - 2
    omega

/-! ### The phone pattern -/

theorem validateInputs_phone_none_iff (name address phone : JSString) :
    (validateInputs name address phone).get "phone" = none ↔
      phone.length = 11 ∧ phoneRegex.test phone = true := by
  rw [validateInputs_eq]
  by_cases hn : name = [] <;> by_cases ha : address = [] <;>
    by_cases hp : phone = [] <;> by_cases hl : phone.length = 11 <;>
    cases ht : phoneRegex.test phone <;>
    simp_all [phoneErrors, ErrorSet.get, List.lookup]

/-- C15: `validateInputs` reports no phone error exactly for the phones made of
"01", one digit in 3..9 and eight ASCII digits. The pattern is the alternation
of the form with "+880" and the national form; every string the form with
"+880" matches has 14 code units, so it gets the length error; and every phone
that begins with "+" gets a phone error. -/
theorem validateInputs_phone_only_national (name address phone : JSString) :
    ((validateInputs name address phone).get "phone" = none ↔
      ∃ d ds, phone = js "01" ++ d :: ds ∧ ('3'.toNat ≤ d ∧ d ≤ '9'.toNat) ∧
        ds.length = 8 ∧ ∀ u ∈ ds, '0'.toNat ≤ u ∧ u ≤ '9'.toNat) ∧
    phoneRegex = .alt phoneRegexIntl phoneRegexNational ∧
    (phoneRegexIntl.test phone = true →
      phone.length = 14 ∧
      (validateInputs name address phone).get "phone" =
        some "Phone number must be exactly 11 digits.") ∧
    (∀ rest : JSString, (validateInputs name address ('+'.toNat :: rest)).get "phone" ≠ none) := by
  have hjs : js "01" = [48, 49] := by decide
  have main : ∀ p : JSString, (validateInputs name address p).get "phone" = none ↔
      ∃ d ds, p = js "01" ++ d :: ds ∧ ('3'.toNat ≤ d ∧ d ≤ '9'.toNat) ∧
        ds.length = 8 ∧ ∀ u ∈ ds, '0'.toNat ≤ u ∧ u ≤ '9'.toNat := by
    intro p
    rw [validateInputs_phone_none_iff, phoneRegex_test_iff, phoneRegexIntl_test_iff,
      phoneRegexNational_test_iff, hjs]
    simp only [Char.reduceToNat]
    constructor
    · rintro ⟨hl, ⟨d, d1, d2, d3, d4, d5, d6, d7, d8, rfl, -⟩ |
        ⟨d, d1, d2, d3, d4, d5, d6, d7, d8, rfl, hd, h1, h2, h3, h4, h5, h6, h7, h8⟩⟩
      · simp at hl
      · refine ⟨d, [d1, d2, d3, d4, d5, d6, d7, d8], rfl, hd, rfl, ?_⟩
        simp only [List.mem_cons, forall_eq_or_imp]
        exact ⟨h1, h2, h3, h4, h5, h6, h7, h8, by simp⟩
    · rintro ⟨d, ds, rfl, hd, hlen, hds⟩
      match ds, hlen, hds with
      | [d1, d2, d3, d4, d5, d6, d7, d8], _, hds =>
        simp only [List.mem_cons, forall_eq_or_imp] at hds
        obtain ⟨h1, h2, h3, h4, h5, h6, h7, h8, -⟩ := hds
        exact ⟨rfl, Or.inr ⟨d, d1, d2, d3, d4, d5, d6, d7, d8, rfl, hd, h1, h2, h3, h4, h5,
          h6, h7, h8⟩⟩
  refine ⟨main phone, rfl, ?_, ?_⟩
  · intro ht
    obtain ⟨d, d1, d2, d3, d4, d5, d6, d7, d8, rfl, -⟩ := (phoneRegexIntl_test_iff phone).1 ht
    refine ⟨rfl, ?_⟩
    rw [validateInputs_eq]
    by_cases hn : name = [] <;> by_cases ha : address = [] <;>
      simp [hn, ha, phoneErrors, ErrorSet.get, List.lookup]
  · intro rest hnone
    obtain ⟨d, ds, hp, -⟩ := (main _).1 hnone
    rw [hjs] at hp
    simp at hp

theorem validateInputs_phone_only_national_witness :
    phoneRegexIntl.test (js "+8801712345678") = true ∧
    (js "+8801712345678").length = 14 ∧
    (validateInputs (js "A") (js "B") (js "+8801712345678")).get "phone" =
      some "Phone number must be exactly 11 digits." :=
  have h := (validateInputs_phone_only_national (js "A") (js "B") (js "+8801712345678")).2.2.1
    (by decide)
  ⟨by decide, h.1, h.2⟩

end Farmingo
